import Mathlib

/-
  Verification development for the LinMot EtherCAT control repository.

  Shallow embedding of the repository's data codec, command-counter stamping,
  parameter packing, derived-status computation, bus-setup count check and the
  cycle-overrun accounting of the communication loop.  Python integers are
  modelled as Nat/Int, Python floats as exact rationals (every float literal
  appearing in the modelled code paths is an exact binary64 value or is only
  used symbolically), byte strings as List Nat (little-endian bytes), and
  fallible operations (struct.pack/unpack range and length errors, dict
  KeyError, raised exceptions) as Option/Except results.
-/

set_option maxHeartbeats 1000000
set_option maxRecDepth 100000

namespace LinMot

/-! ## Command-counter stamping (SendData.py, toggle_bits) -/

/-- Model of `SendData.toggle_bits` (SendData.py lines 200-212).
The drive state is read as `inputs['state_var']`; the function extracts the
lower 4 bits, replaces a reading of 15 by 0, increments modulo 16, and merges
the new counter into the lower nibble of the 16-bit header. -/
def toggle_bits (state_var header : Nat) : Nat :=
  let cmd_count_old := state_var &&& 0x000F
  let cmd_count_old' := if cmd_count_old = 15 then 0 else cmd_count_old
  let cmd_count_new := (cmd_count_old' + 1) % 16
  (header &&& 0xFFF0) ||| cmd_count_new

/-! ## Byte-level frame codec (LMDrive_Data.py)

Byte strings are `List Nat` of little-endian bytes.  `struct.pack` range
errors and `struct.unpack` length errors are modelled by `Option`. -/

/-- Model of `LMDrive_Data.uint16_to_sint16` (LMDrive_Data.py lines 145-146). -/
def uint16_to_sint16 (val : Int) : Int :=
  if 0x8000 ≤ val then val - 0x10000 else val

/-- Little-endian bytes of a 16-bit value (struct format `H`). -/
def leBytes2 (v : Nat) : List Nat := [v % 256, v / 256]

/-- Little-endian bytes of a 32-bit value. -/
def leBytes4 (v : Nat) : List Nat :=
  [v % 256, v / 256 % 256, v / 65536 % 256, v / 16777216 % 256]

/-- Two's-complement 32-bit image of a Python int in the i32 range. -/
def toUInt32 (v : Int) : Nat := (v % 4294967296).toNat

/-- struct format `H`: pack an unsigned 16-bit value, range-checked. -/
def packU16 (v : Int) : Option (List Nat) :=
  if 0 ≤ v ∧ v < 65536 then some (leBytes2 v.toNat) else none

/-- struct format `i`: pack a signed 32-bit value, range-checked. -/
def packI32 (v : Int) : Option (List Nat) :=
  if -2147483648 ≤ v ∧ v < 2147483648 then some (leBytes4 (toUInt32 v)) else none

/-- Pack a run of consecutive `H` fields. -/
def packU16List : List Int → Option (List Nat)
  | [] => some []
  | v :: vs =>
    match packU16 v, packU16List vs with
    | some b, some bs => some (b ++ bs)
    | _, _ => none

/-- Read an unsigned little-endian 16-bit field at byte offset `off`. -/
def readU16 (data : List Nat) (off : Nat) : Int :=
  ((data.getD off 0 + 256 * data.getD (off + 1) 0 : Nat) : Int)

/-- Read an unsigned little-endian 32-bit field at byte offset `off`. -/
def readU32 (data : List Nat) (off : Nat) : Nat :=
  data.getD off 0 + 256 * data.getD (off + 1) 0 + 65536 * data.getD (off + 2) 0 +
    16777216 * data.getD (off + 3) 0

/-- Read a signed little-endian 32-bit field (struct format `i`). -/
def readI32 (data : List Nat) (off : Nat) : Int :=
  if readU32 data off < 2147483648 then (readU32 data off : Int)
  else (readU32 data off : Int) - 4294967296

/-- The `inputs` dictionary of `LMDrive_Data`: fixed fields of format
`<HHHiiiHHi`, then one i32 per monitoring channel. -/
structure DriveInputs where
  state_var : Int
  status_word : Int
  warn_word : Int
  demand_pos : Int
  actual_pos : Int
  demand_curr : Int
  cfg_status : Int
  cfg_index_in : Int
  cfg_value_in : Int
  mon : List Int
deriving DecidableEq

/-- Model of `LMDrive_Data.unpack_inputs` (LMDrive_Data.py lines 116-143):
`struct.unpack('<HHHiiiHHi' + 'i' * M, data)` requires the frame to be exactly
26 + 4·M bytes; every monitoring channel is then passed through
`uint16_to_sint16`. -/
def unpack_inputs (M : Nat) (data : List Nat) : Option DriveInputs :=
  if data.length = 26 + 4 * M then
    some {
      state_var := readU16 data 0
      status_word := readU16 data 2
      warn_word := readU16 data 4
      demand_pos := readI32 data 6
      actual_pos := readI32 data 10
      demand_curr := readI32 data 14
      cfg_status := readU16 data 18
      cfg_index_in := readU16 data 20
      cfg_value_in := readI32 data 22
      mon := (List.range M).map fun i => uint16_to_sint16 (readI32 data (26 + 4 * i)) }
  else none

/-- The `outputs` dictionary of `LMDrive_Data`: 14 u16 fields, one i32 field,
then one entry per parameter channel. -/
structure DriveOutputs where
  control_word : Int
  mc_header : Int
  mc_para_word00 : Int
  mc_para_word01 : Int
  mc_para_word02 : Int
  mc_para_word03 : Int
  mc_para_word04 : Int
  mc_para_word05 : Int
  mc_para_word06 : Int
  mc_para_word07 : Int
  mc_para_word08 : Int
  mc_para_word09 : Int
  cfg_control : Int
  cfg_index_out : Int
  cfg_value_out : Int
  par : List Int
deriving DecidableEq

/-- The 14 leading u16 fields of the output image, in wire order. -/
def output_header_fields (o : DriveOutputs) : List Int :=
  [o.control_word, o.mc_header,
   o.mc_para_word00, o.mc_para_word01, o.mc_para_word02, o.mc_para_word03,
   o.mc_para_word04, o.mc_para_word05, o.mc_para_word06, o.mc_para_word07,
   o.mc_para_word08, o.mc_para_word09,
   o.cfg_control, o.cfg_index_out]

/-- Model of `LMDrive_Data.pack_outputs` (LMDrive_Data.py lines 180-213):
`struct.pack('<HHHHHHHHHHHHHHi' + 'H' * P, ...)` — 14 u16 fields, the i32
`cfg_value_out`, then the P parameter channels as u16 (`'H' * self.num_par_ch`). -/
def pack_outputs (P : Nat) (o : DriveOutputs) : Option (List Nat) :=
  if o.par.length = P then
    match packU16List (output_header_fields o), packI32 o.cfg_value_out,
        packU16List o.par with
    | some hs, some c, some ps => some (hs ++ c ++ ps)
    | _, _, _ => none
  else none

/-- Model of `LMDrive_Data.unpack_outputs` (LMDrive_Data.py lines 148-178):
`struct.unpack('<HHHHHHHHHHHHHHi' + 'i' * P, data)` — note the parameter
channels are read with format `'i'` (4 bytes each), so the expected frame
length is 32 + 4·P bytes. -/
def unpack_outputs (P : Nat) (data : List Nat) : Option DriveOutputs :=
  if data.length = 32 + 4 * P then
    some {
      control_word := readU16 data 0
      mc_header := readU16 data 2
      mc_para_word00 := readU16 data 4
      mc_para_word01 := readU16 data 6
      mc_para_word02 := readU16 data 8
      mc_para_word03 := readU16 data 10
      mc_para_word04 := readU16 data 12
      mc_para_word05 := readU16 data 14
      mc_para_word06 := readU16 data 16
      mc_para_word07 := readU16 data 18
      mc_para_word08 := readU16 data 20
      mc_para_word09 := readU16 data 22
      cfg_control := readU16 data 24
      cfg_index_out := readU16 data 26
      cfg_value_out := readI32 data 28
      par := (List.range P).map fun i => readI32 data (32 + 4 * i) }
  else none

/-- The output image as initialised by `LMDrive_Data.__init__`
(LMDrive_Data.py lines 45-63): `control_word = 0x003E`, everything else 0,
one zero per parameter channel. -/
def defaultOutputs (P : Nat) : DriveOutputs where
  control_word := 0x003E
  mc_header := 0
  mc_para_word00 := 0
  mc_para_word01 := 0
  mc_para_word02 := 0
  mc_para_word03 := 0
  mc_para_word04 := 0
  mc_para_word05 := 0
  mc_para_word06 := 0
  mc_para_word07 := 0
  mc_para_word08 := 0
  mc_para_word09 := 0
  cfg_control := 0
  cfg_index_out := 0
  cfg_value_out := 0
  par := List.replicate P 0

/-- Model of `EtherCATCommunication.__init__` line 158:
`self.InputLength = 18 + 8 + (4 * self.no_Monitoring)`. -/
def InputLength (M : Nat) : Nat := 18 + 8 + 4 * M

/-! ## Scaling configuration (utils.py / LMDrive_Data.py config dictionaries)

Float literals of the source are modelled as exact rationals. -/

def pos_scale_numerator : ℚ := 10000
def pos_scale_denominator : ℚ := 1
def fc_force_scale : ℚ := 0.1
def analog_diff_voltage_scale : ℚ := 0.0048828125
def analog_voltage_scale : ℚ := 0.00244140625
def load_cell_scale : ℚ := 19.6133

/-- Recomputed `unit_scale = pos_scale_numerator / pos_scale_denominator`. -/
def unit_scale : ℚ := pos_scale_numerator / pos_scale_denominator

/-- Model of `ctypes.c_int32(v).value`: wrap to the signed 32-bit range. -/
def toInt32 (v : Int) : Int := (v + 2147483648) % 4294967296 - 2147483648

/-- Model of `ctypes.c_int16(v).value`: wrap to the signed 16-bit range. -/
def toInt16 (v : Int) : Int := (v + 32768) % 65536 - 32768

/-- Floor of a rational as an integer (computable). -/
def ratFloor (q : ℚ) : Int := Int.fdiv q.num q.den

/-- Round a rational to the nearest integer, ties to even (the rounding used by
Python's builtin `round`). -/
def roundHalfEven (q : ℚ) : Int :=
  let f := ratFloor q
  let r := q - (f : ℚ)
  if r < 1 / 2 then f
  else if 1 / 2 < r then f + 1
  else if f % 2 = 0 then f else f + 1

/-- Model of Python `round(x, 4)`. -/
def round4 (q : ℚ) : ℚ := ((roundHalfEven (q * 10000) : Int) : ℚ) / 10000

/-! ## IEEE-754 binary32 reinterpretation (utils.py, int32_to_floatieee754) -/

/-- Exact value of an IEEE-754 binary32 datum given its 32 raw bits.
Infinities and NaNs (exponent field 255) are outside the model. -/
def float32OfBits (b : Nat) : Option ℚ :=
  let sign : Nat := b / 2 ^ 31 % 2
  let ex : Nat := b / 2 ^ 23 % 256
  let frac : Nat := b % 2 ^ 23
  if ex = 255 then none
  else
    let mag : ℚ :=
      if ex = 0 then (frac : ℚ) / 2 ^ 149
      else ((2 ^ 23 + frac : Nat) : ℚ) * 2 ^ ex / 2 ^ 150
    some (if sign = 1 then -mag else mag)

/-- Model of `utils.int32_to_floatieee754` (utils.py lines 201-207): the value
is packed with `struct.pack('<i', val)` and reinterpreted with
`struct.unpack('<f', ...)`, i.e. a bitcast of the two's-complement image. -/
def int32_to_floatieee754 (val : Int) : Option ℚ :=
  float32OfBits (toUInt32 val)

/-! ## Scope decoding path (utils.py, unpack_input_data with M = 4) -/

/-- The tuple produced by `struct.unpack('<HHHiiiHHi' + 'i' * 4, data)` on the
scope path, before the sign/float conversions. -/
structure ScopeRaw where
  state_var : Nat
  status_word : Nat
  warn_word : Nat
  demand_pos : Int
  actual_pos : Int
  demand_curr : Int
  cfg_status : Nat
  cfg_index_in : Nat
  cfg_value_in : Int
  mon_ch1 : Int
  mon_ch2 : Int
  mon_ch3 : Int
  mon_ch4 : Int
deriving DecidableEq

/-- The dictionary returned by `utils.unpack_input_data` for M = 4: channels
1..3 reinterpreted by `uint16_to_sint16`, the last channel bitcast to an
IEEE-754 single. -/
structure ScopeInputs where
  state_var : Nat
  status_word : Nat
  warn_word : Nat
  demand_pos : Int
  actual_pos : Int
  demand_curr : Int
  cfg_status : Nat
  cfg_index_in : Nat
  cfg_value_in : Int
  mon_ch1 : Int
  mon_ch2 : Int
  mon_ch3 : Int
  mon_ch4 : ℚ
deriving DecidableEq

/-- Model of `utils.unpack_input_data` (utils.py lines 181-237) at the source's
scope configuration M = 4: the monitoring channels at positions `len-M` to
`len-2` (channels 1..3) go through `uint16_to_sint16`, and the last unpacked
value (channel 4) through `int32_to_floatieee754`. -/
def unpack_input_data (f : ScopeRaw) : Option ScopeInputs :=
  (int32_to_floatieee754 f.mon_ch4).map fun q =>
    { state_var := f.state_var
      status_word := f.status_word
      warn_word := f.warn_word
      demand_pos := f.demand_pos
      actual_pos := f.actual_pos
      demand_curr := f.demand_curr
      cfg_status := f.cfg_status
      cfg_index_in := f.cfg_index_in
      cfg_value_in := f.cfg_value_in
      mon_ch1 := uint16_to_sint16 f.mon_ch1
      mon_ch2 := uint16_to_sint16 f.mon_ch2
      mon_ch3 := uint16_to_sint16 f.mon_ch3
      mon_ch4 := q }

/-- The status dictionary built by `utils.update_calculated_fields_from_inputs`
(utils.py lines 240-291), field for field in source order. -/
structure ScopeStatus where
  operation_enabled : Bool
  switch_on_locked : Bool
  homed : Bool
  motion_active : Bool
  warning : Bool
  error : Bool
  error_code : Nat
  demand_position : ℚ
  actual_position : ℚ
  difference_position : ℚ
  actual_current : ℚ
  measured_force : ℚ
  analog_diff_voltage : ℚ
  analog_diff_voltage_filtered : ℚ
  analog_voltage : ℚ
  estimated_analog_force : ℚ
deriving DecidableEq

/-- Model of `utils.update_calculated_fields_from_inputs` (utils.py lines
240-291).  `ctypes.c_float(inputs['mon_ch4']).value` is the identity here
because `mon_ch4` is already an exact binary32 value, so the filtered voltage
is `mon_ch4 * analog_diff_voltage_scale` (source line 286). -/
def update_calculated_fields_from_inputs (i : ScopeInputs) : ScopeStatus :=
  let demand_position : ℚ := (toInt32 i.demand_pos : ℚ) / unit_scale
  let actual_position : ℚ := (toInt32 i.actual_pos : ℚ) / unit_scale
  let analog_diff_voltage_filtered : ℚ := i.mon_ch4 * analog_diff_voltage_scale
  { operation_enabled := i.status_word &&& 0x0001 != 0
    switch_on_locked := i.status_word &&& 0x0040 != 0
    homed := i.status_word &&& 0x0800 != 0
    motion_active := i.status_word &&& 0x2000 != 0
    warning := i.status_word &&& 0x0080 != 0
    error := i.status_word &&& 0x0008 != 0
    error_code :=
      if i.state_var &&& 0xFF00 = 0x0400 then i.state_var &&& 0x00FF else 0
    demand_position := demand_position
    actual_position := actual_position
    difference_position := round4 (demand_position - actual_position)
    actual_current := (toInt16 i.demand_curr : ℚ) / 1000
    measured_force := (toInt32 i.mon_ch1 : ℚ) * fc_force_scale
    analog_diff_voltage := (toInt32 i.mon_ch2 : ℚ) * analog_diff_voltage_scale
    analog_diff_voltage_filtered := analog_diff_voltage_filtered
    analog_voltage := (toInt32 i.mon_ch3 : ℚ) * analog_voltage_scale
    estimated_analog_force := analog_diff_voltage_filtered * load_cell_scale }

/-! ## Drive-model status update (LMDrive_Data.py, update_calculated_fields) -/

/-- The status dictionary of `LMDrive_Data` as written by
`update_calculated_fields` (LMDrive_Data.py lines 80-114). -/
structure LMStatus where
  operation_enabled : Bool
  switch_on_locked : Bool
  homed : Bool
  motion_active : Bool
  warning : Bool
  error : Bool
  error_code : Nat
  demand_position : ℚ
  actual_position : ℚ
  difference_position : ℚ
  actual_current : ℚ
  measured_force : ℚ
  analog_diff_voltage : ℚ
  analog_voltage : ℚ
deriving DecidableEq

/-- State of an `LMDrive_Data` object: the `inputs` dictionary holds the key
`mon_ch{i}` exactly for `1 ≤ i ≤ num_mon_ch` (created by `__init__`,
LMDrive_Data.py lines 76-77). -/
structure LMDriveData where
  num_mon_ch : Nat
  state_var : Nat
  status_word : Nat
  warn_word : Nat
  demand_pos : Int
  actual_pos : Int
  demand_curr : Int
  cfg_status : Nat
  cfg_index_in : Nat
  cfg_value_in : Int
  mon : Nat → Int

/-- Dictionary lookup `inputs[f'mon_ch{i}']`: `none` models a KeyError. -/
def inputs_mon_ch (d : LMDriveData) (i : Nat) : Option Int :=
  if 1 ≤ i ∧ i ≤ d.num_mon_ch then some (d.mon i) else none

/-- Model of `LMDrive_Data.update_calculated_fields` (LMDrive_Data.py lines
80-114): the computation reads `mon_ch1`, `mon_ch2` and `mon_ch3`
unconditionally; a missing key raises KeyError, modelled as `none`. -/
def update_calculated_fields (d : LMDriveData) : Option LMStatus :=
  match inputs_mon_ch d 1, inputs_mon_ch d 2, inputs_mon_ch d 3 with
  | some m1, some m2, some m3 =>
    let demand_position : ℚ := (toInt32 d.demand_pos : ℚ) / unit_scale
    let actual_position : ℚ := (toInt32 d.actual_pos : ℚ) / unit_scale
    some {
      operation_enabled := d.status_word &&& 0x0001 != 0
      switch_on_locked := d.status_word &&& 0x0040 != 0
      homed := d.status_word &&& 0x0800 != 0
      motion_active := d.status_word &&& 0x2000 != 0
      warning := d.status_word &&& 0x0080 != 0
      error := d.status_word &&& 0x0008 != 0
      error_code :=
        if d.state_var &&& 0xFF00 = 0x0400 then d.state_var &&& 0x00FF else 0
      demand_position := demand_position
      actual_position := actual_position
      difference_position := round4 (demand_position - actual_position)
      actual_current := (toInt16 d.demand_curr : ℚ) / 1000
      measured_force := (toInt32 m1 : ℚ) * fc_force_scale
      analog_diff_voltage := (toInt32 m2 : ℚ) * analog_diff_voltage_scale
      analog_voltage := (toInt32 m3 : ℚ) * analog_voltage_scale }
  | _, _, _ => none

/-! ## Motion-parameter packing (SendData.py, update_output_drive_data) -/

/-- One `para_word` entry `[tag, value]`: tag 1 is a single 16-bit word, tag 2
a 32-bit value split into two consecutive words. -/
inductive ParaEntry where
  | one : Int → ParaEntry
  | two : Int → ParaEntry
deriving DecidableEq

/-- Model of `SendData.convert23to16` (SendData.py lines 226-234):
`value & 0xFFFF` and `value >> 16 & 0xFFFF`; on Python ints the mask is the
nonnegative remainder and the shift is floor division. -/
def convert23to16 (v : Int) : Int × Int :=
  (v % 65536, (Int.fdiv v 65536) % 65536)

/-- The `para_word` loop of `SendData.update_output_drive_data` (SendData.py
lines 270-284), implemented for the state `(bit_count, message_count)`:
returns the list of `(slot index, value)` writes to `mc_para_word{slot:02}`,
the final `bit_count`, and how many too-much-data messages were emitted. -/
def ppw_loop : Nat → Nat → List (Option ParaEntry) → List (Nat × Int) × Nat × Nat
  | bit_count, msgs, [] => ([], bit_count, msgs)
  | bit_count, msgs, pw :: rest =>
    if bit_count ≤ 10 then
      match pw with
      | none => ppw_loop bit_count msgs rest
      | some (ParaEntry.one v) =>
        let r := ppw_loop (bit_count + 1) msgs rest
        ((bit_count, v) :: r.1, r.2)
      | some (ParaEntry.two v) =>
        let p := convert23to16 v
        let r := ppw_loop (bit_count + 2) msgs rest
        ((bit_count, p.1) :: (bit_count + 1, p.2) :: r.1, r.2)
    else
      ppw_loop bit_count (msgs + 1) rest

/-- Parameter packing as entered from `update_output_drive_data`:
`bit_count` starts at 0 and no message has been emitted. -/
def processParaWords (para_word : List (Option ParaEntry)) :
    List (Nat × Int) × Nat × Nat :=
  ppw_loop 0 0 para_word

/-! ## Cycle-overrun accounting (EtherCATCommunication.py, comm_process) -/

/-- Constant from `EtherCATCommunication.__init__` line 171. -/
def MAX_CYCLE_OVERRUN : Nat := 20

/-- Model of `sleep_time = self.cycle_time - elapsed_time - 0.0004`
(EtherCATCommunication.py line 374). -/
def sleep_time (cycle_time elapsed : ℚ) : ℚ := cycle_time - elapsed - 0.0004

/-- One pass of the overrun accounting (EtherCATCommunication.py lines
373-383): positive sleep time resets the counter to 0; otherwise the counter
increments, and once it exceeds `MAX_CYCLE_OVERRUN` the loop raises
(`none` models the CycleOverrun RuntimeError). -/
def overrunStep (cycle_time : ℚ) (count : Nat) (elapsed : ℚ) : Option Nat :=
  if 0 < sleep_time cycle_time elapsed then some 0
  else if MAX_CYCLE_OVERRUN < count + 1 then none
  else some (count + 1)

/-- The communication loop restricted to its overrun accounting, run over the
sequence of per-cycle elapsed times. -/
def commRun (cycle_time : ℚ) : Nat → List ℚ → Option Nat
  | count, [] => some count
  | count, e :: rest =>
    match overrunStep cycle_time count e with
    | none => none
    | some c => commRun cycle_time c rest

/-! ## Bus setup slave-count check (EtherCATCommunication.py, setup_comm) -/

/-- The exception raised at EtherCATCommunication.py lines 205-206: its
message carries the expected and found device counts. -/
structure SlaveCountError where
  expected : Nat
  found : Nat
deriving DecidableEq

/-- The `try` body of `setup_comm` restricted to the slave-count check: open
the adapter, enumerate via `config_init`, and raise `SlaveCountError` when the
count differs from `noDev`; the rest of the setup is abstracted as
succeeding. -/
def setup_comm_body (noDev found : Nat) : Except SlaveCountError Nat :=
  if found ≠ noDev then Except.error ⟨noDev, found⟩ else Except.ok noDev

/-- Observable outcome of `setup_comm`: the returned slave list (`none` when
setup failed), whether `master.close()` ran, and the error put on
`error_queue` (logged only when `mp_log >= 40`, line 284). -/
structure SetupOutcome where
  slaves : Option Nat
  master_closed : Bool
  error_logged : Option SlaveCountError
deriving DecidableEq

/-- Model of `EtherCATCommunication.setup_comm` (EtherCATCommunication.py
lines 194-285) on the slave-count path: any exception in the body is caught,
`master.close()` runs, the error is logged if `mp_log >= 40`, and `None` is
returned. -/
def setup_comm (noDev found mp_log : Nat) : SetupOutcome :=
  match setup_comm_body noDev found with
  | Except.ok s => { slaves := some s, master_closed := false, error_logged := none }
  | Except.error e =>
    { slaves := none
      master_closed := true
      error_logged := if 40 ≤ mp_log then some e else none }

/-! ## Concrete frames used to instantiate the theorems -/

/-- A scope-path raw frame with every field zero. -/
def zeroScopeRaw : ScopeRaw where
  state_var := 0
  status_word := 0
  warn_word := 0
  demand_pos := 0
  actual_pos := 0
  demand_curr := 0
  cfg_status := 0
  cfg_index_in := 0
  cfg_value_in := 0
  mon_ch1 := 0
  mon_ch2 := 0
  mon_ch3 := 0
  mon_ch4 := 0

/-- A decoded scope-path input dictionary with every field zero. -/
def zeroScopeInputs : ScopeInputs where
  state_var := 0
  status_word := 0
  warn_word := 0
  demand_pos := 0
  actual_pos := 0
  demand_curr := 0
  cfg_status := 0
  cfg_index_in := 0
  cfg_value_in := 0
  mon_ch1 := 0
  mon_ch2 := 0
  mon_ch3 := 0
  mon_ch4 := 0

/-! ## Generic bit-manipulation helper lemmas -/

theorem and15_eq_mod (x : Nat) : x &&& 15 = x % 16 := by
  have h := Nat.and_pow_two_sub_one_eq_mod x 4
  norm_num at h
  exact h

theorem testBit_65520 (i : Nat) :
    (65520 : Nat).testBit i = (decide (4 ≤ i) && decide (i < 16)) := by
  by_cases h16 : i < 16
  · interval_cases i <;> decide
  · have : (65520 : Nat) < 2 ^ i := by
      calc (65520 : Nat) < 2 ^ 16 := by norm_num
        _ ≤ 2 ^ i := Nat.pow_le_pow_right (by norm_num) (by omega)
    simp [Nat.testBit_lt_two_pow this]
    omega

theorem testBit_15 (i : Nat) :
    (15 : Nat).testBit i = decide (i < 4) := by
  by_cases h4 : i < 4
  · interval_cases i <;> decide
  · have : (15 : Nat) < 2 ^ i := by
      calc (15 : Nat) < 2 ^ 4 := by norm_num
        _ ≤ 2 ^ i := Nat.pow_le_pow_right (by norm_num) (by omega)
    simp [Nat.testBit_lt_two_pow this]
    omega

theorem testBit_of_lt_16 {m i : Nat} (hm : m < 16) (hi : 4 ≤ i) :
    m.testBit i = false := by
  have : m < 2 ^ i := by
    calc m < 2 ^ 4 := by omega
      _ ≤ 2 ^ i := Nat.pow_le_pow_right (by norm_num) hi
  exact Nat.testBit_lt_two_pow this

theorem masked_or_low (h m : Nat) (hm : m < 16) :
    ((h &&& 65520) ||| m) &&& 15 = m := by
  apply Nat.eq_of_testBit_eq
  intro i
  simp only [Nat.testBit_and, Nat.testBit_or, testBit_65520, testBit_15]
  by_cases hi : i < 4
  · have h1 : ¬ 4 ≤ i := by omega
    simp [hi, h1]
  · have h1 : 4 ≤ i := by omega
    rw [testBit_of_lt_16 hm h1]
    simp [hi]

theorem masked_or_high (h m : Nat) (hm : m < 16) :
    ((h &&& 65520) ||| m) &&& 65520 = h &&& 65520 := by
  apply Nat.eq_of_testBit_eq
  intro i
  simp only [Nat.testBit_and, Nat.testBit_or, testBit_65520]
  by_cases hlow : i < 4
  · have h1 : ¬ 4 ≤ i := by omega
    simp [h1]
  · have h1 : 4 ≤ i := by omega
    rw [testBit_of_lt_16 hm h1]
    simp

theorem toggle_bits_nibble (s h : Nat) :
    toggle_bits s h &&& 0x000F =
      (if s &&& 0x000F = 15 then 1 else ((s &&& 0x000F) + 1) % 16) := by
  unfold toggle_bits
  have hlt : ((if s &&& 0x000F = 15 then 0 else s &&& 0x000F) + 1) % 16 < 16 :=
    Nat.mod_lt _ (by norm_num)
  rw [show (0x000F : Nat) = 15 from rfl, show (0xFFF0 : Nat) = 65520 from rfl,
    masked_or_low h _ hlt]
  by_cases h15 : s &&& 15 = 15
  · simp [h15]
  · simp [h15]

theorem toggle_bits_high (s h : Nat) :
    toggle_bits s h &&& 0xFFF0 = h &&& 0xFFF0 := by
  unfold toggle_bits
  have hlt : ((if s &&& 0x000F = 15 then 0 else s &&& 0x000F) + 1) % 16 < 16 :=
    Nat.mod_lt _ (by norm_num)
  rw [show (0xFFF0 : Nat) = 65520 from rfl]
  exact masked_or_high h _ hlt

/-- Claim C1 counterexample: with the last decoded `state_var = 0x240F` (lower
nibble 15) and base header `0x0100`, the stamped lower nibble is 1, not
`((state_var & 0x000F) + 1) mod 16 = 0` as the claim states. -/
theorem C1_counterexample :
    toggle_bits 0x240F 0x0100 &&& 0x000F ≠ ((0x240F &&& 0x000F) + 1) % 16 := by
  decide

/-- Claim C1 (amended): for every stamped header, the lower 4 bits equal
`((state_var & 0x000F) + 1) mod 16` whenever the old nibble is not 15, but when
the old nibble is 15 it is first replaced by 0 and then incremented, so the
stamped nibble is 1 (not 0); the upper 12 bits of the base header are
preserved. -/
theorem C1_amended (s h : Nat) :
    (toggle_bits s h &&& 0x000F =
      if s &&& 0x000F = 15 then 1 else ((s &&& 0x000F) + 1) % 16) ∧
    toggle_bits s h &&& 0xFFF0 = h &&& 0xFFF0 :=
  ⟨toggle_bits_nibble s h, toggle_bits_high s h⟩

/-- Claim C9: the command-counter nibble stamped by `toggle_bits` always lies in
{1, ..., 15} and is never 0; in particular when the old nibble is 15 it is
first replaced by 0 and then incremented, so the stamped nibble is 1. -/
theorem C9_nibble_range (s h : Nat) :
    (1 ≤ toggle_bits s h &&& 0x000F ∧ toggle_bits s h &&& 0x000F ≤ 15) ∧
    (s &&& 0x000F = 15 → toggle_bits s h &&& 0x000F = 1) := by
  have hn := toggle_bits_nibble s h
  have hmod : s &&& 0x000F = s % 16 := and15_eq_mod s
  have hlt : s % 16 < 16 := Nat.mod_lt _ (by norm_num)
  constructor
  · rw [hn]
    by_cases h15 : s &&& 0x000F = 15
    · simp [h15]
    · rw [if_neg h15]
      rw [hmod] at h15 ⊢
      omega
  · intro h15
    rw [hn, if_pos h15]

/-- Claim C9 witness: at `state_var = 15` the stamped nibble is 1. -/
theorem C9_nibble_range_witness :
    (15 : Nat) &&& 0x000F = 15 ∧ toggle_bits 15 0x2000 &&& 0x000F = 1 :=
  ⟨by decide, (C9_nibble_range 15 0x2000).2 (by decide)⟩

/-! ## Frame-size and round-trip theorems (claims C2, C3) -/

theorem packU16_length {v : Int} {b : List Nat} (h : packU16 v = some b) :
    b.length = 2 := by
  unfold packU16 at h
  split at h
  · cases h
    rfl
  · cases h

theorem packI32_length {v : Int} {b : List Nat} (h : packI32 v = some b) :
    b.length = 4 := by
  unfold packI32 at h
  split at h
  · cases h
    rfl
  · cases h

theorem packU16List_length :
    ∀ {vs : List Int} {bs : List Nat}, packU16List vs = some bs →
      bs.length = 2 * vs.length := by
  intro vs
  induction vs with
  | nil =>
    intro bs h
    cases h
    rfl
  | cons v vs ih =>
    intro bs h
    unfold packU16List at h
    rcases h1 : packU16 v with _ | b <;> rw [h1] at h
    · cases h
    · rcases h2 : packU16List vs with _ | bs' <;> rw [h2] at h
      · cases h
      · cases h
        have := ih h2
        have := packU16_length h1
        simp [List.length_append]
        omega

theorem pack_outputs_length {P : Nat} {o : DriveOutputs} {bs : List Nat}
    (h : pack_outputs P o = some bs) : bs.length = 32 + 2 * P := by
  unfold pack_outputs at h
  split at h
  case isTrue hp =>
    rcases h1 : packU16List (output_header_fields o) with _ | hs <;> rw [h1] at h
    · cases h
    · rcases h2 : packI32 o.cfg_value_out with _ | c <;> rw [h2] at h
      · cases h
      · rcases h3 : packU16List o.par with _ | ps <;> rw [h3] at h
        · cases h
        · cases h
          have l1 := packU16List_length h1
          have l2 := packI32_length h2
          have l3 := packU16List_length h3
          have lf : (output_header_fields o).length = 14 := rfl
          rw [lf] at l1
          rw [hp] at l3
          simp [List.length_append]
          omega
  case isFalse => cases h

/-- Claim C2 counterexample: with M = 0 monitoring channels the input decoder
rejects an 18-byte frame (the fixed part of `'<HHHiiiHHi'` is 26 bytes, not
18), and with P = 0 parameter channels `pack_outputs` emits a 32-byte frame,
not a 30-byte one. -/
theorem C2_counterexample :
    unpack_inputs 0 (List.replicate 18 0) = none ∧
    ¬ (pack_outputs 0 (defaultOutputs 0)).map List.length = some (30 + 2 * 0) := by
  constructor
  · decide
  · decide

/-- Claim C2 (amended): the input frame consumed by `unpack_inputs` is exactly
26 + 4·M bytes (the source's `InputLength = 18 + 8 + 4·M`), and the output
frame emitted by `pack_outputs` is exactly 32 + 2·P bytes. -/
theorem C2_amended :
    (∀ M, InputLength M = 26 + 4 * M) ∧
    (∀ M data, (unpack_inputs M data).isSome ↔ data.length = 26 + 4 * M) ∧
    (∀ (P : Nat) (o : DriveOutputs) (bs : List Nat),
      pack_outputs P o = some bs → bs.length = 32 + 2 * P) := by
  refine ⟨fun M => by unfold InputLength; omega, fun M data => ?_,
    fun P o bs h => pack_outputs_length h⟩
  unfold unpack_inputs
  split
  case isTrue hlen => simp [hlen]
  case isFalse hlen => simp [hlen]

/-- Claim C2 witness: a 42-byte frame decodes with M = 4, and a default output
image with P = 2 parameter channels packs to 36 bytes. -/
theorem C2_amended_witness :
    ((unpack_inputs 4 (List.replicate 42 0)).isSome = true) ∧
    (pack_outputs 2 (defaultOutputs 2)).map List.length = some (32 + 2 * 2) := by
  constructor
  · exact (C2_amended.2.1 4 (List.replicate 42 0)).mpr (by decide)
  · rcases hsome : pack_outputs 2 (defaultOutputs 2) with _ | bs
    · exact absurd hsome (by decide)
    · show some bs.length = some (32 + 2 * 2)
      exact congrArg some (C2_amended.2.2 2 (defaultOutputs 2) bs hsome)

/-- Claim C3 (code bug): decoding an encoded output image fails for P = 1
(and any P ≥ 1), because `unpack_outputs` reads each parameter channel with
struct format `'i'` (4 bytes) while `pack_outputs` writes it with `'H'`
(2 bytes): the packed frame has 34 bytes but the decoder demands 36.  For
P = 0 the decode-of-encode round trip is the identity, as the claim states. -/
theorem C3_roundtrip_evaluation :
    (pack_outputs 1 (defaultOutputs 1)).bind (unpack_outputs 1) = none ∧
    (pack_outputs 0 (defaultOutputs 0)).bind (unpack_outputs 0) =
      some (defaultOutputs 0) := by
  constructor
  · decide
  · decide

/-! ## Derived error code (claim C4) -/

/-- Claim C4 counterexample: at `state_var = 0x0400` the condition
`state_var & 0xFF00 == 0x0400` holds but `error_code = state_var & 0xFF = 0`,
so "error_code is non-zero iff the condition holds" fails. -/
theorem C4_counterexample :
    ¬ (((update_calculated_fields_from_inputs
          { zeroScopeInputs with state_var := 0x0400 }).error_code ≠ 0) ↔
        ((0x0400 : Nat) &&& 0xFF00 = 0x0400)) := by
  decide

/-- Claim C4 (amended): `error_code` equals `state_var & 0xFF` when
`state_var & 0xFF00 == 0x0400` and 0 otherwise; hence a non-zero `error_code`
implies the condition, and under the condition `error_code` is non-zero
exactly when `state_var & 0xFF` is non-zero (it is 0 for `state_var =
0x0400`). -/
theorem C4_amended (i : ScopeInputs) :
    ((update_calculated_fields_from_inputs i).error_code =
      if i.state_var &&& 0xFF00 = 0x0400 then i.state_var &&& 0x00FF else 0) ∧
    ((update_calculated_fields_from_inputs i).error_code ≠ 0 →
      i.state_var &&& 0xFF00 = 0x0400) ∧
    (i.state_var &&& 0xFF00 = 0x0400 → i.state_var &&& 0x00FF ≠ 0 →
      (update_calculated_fields_from_inputs i).error_code ≠ 0) := by
  refine ⟨rfl, ?_, ?_⟩
  · intro h
    by_contra hc
    exact h (by simp [update_calculated_fields_from_inputs, hc])
  · intro h1 h2
    simpa [update_calculated_fields_from_inputs, h1] using h2

/-- Claim C4 witness: at `state_var = 0x0412` the error state holds and the
derived error code 0x12 is non-zero. -/
theorem C4_amended_witness :
    (0x0412 : Nat) &&& 0xFF00 = 0x0400 ∧
    (update_calculated_fields_from_inputs
      { zeroScopeInputs with state_var := 0x0412 }).error_code ≠ 0 :=
  ⟨by decide,
    (C4_amended { zeroScopeInputs with state_var := 0x0412 }).2.2
      (by decide) (by decide)⟩

/-! ## Motion-parameter packing bound (claim C5) -/

theorem ppw_loop_slots :
    ∀ (l : List (Option ParaEntry)) (bc msgs s : Nat) (v : Int),
      (s, v) ∈ (ppw_loop bc msgs l).1 → s ≤ 11 := by
  intro l
  induction l with
  | nil =>
    intro bc msgs s v h
    simp [ppw_loop] at h
  | cons pw rest ih =>
    intro bc msgs s v h
    by_cases hbc : bc ≤ 10
    · rcases pw with _ | w | w
      · rw [show ppw_loop bc msgs (none :: rest) =
            if bc ≤ 10 then ppw_loop bc msgs rest
            else ppw_loop bc (msgs + 1) rest from rfl, if_pos hbc] at h
        exact ih bc msgs s v h
      · rw [show ppw_loop bc msgs (some (ParaEntry.one w) :: rest) =
            if bc ≤ 10 then
              ((bc, w) :: (ppw_loop (bc + 1) msgs rest).1,
                (ppw_loop (bc + 1) msgs rest).2)
            else ppw_loop bc (msgs + 1) rest from rfl, if_pos hbc] at h
        rcases List.mem_cons.mp h with h | h
        · cases h
          omega
        · exact ih (bc + 1) msgs s v h
      · rw [show ppw_loop bc msgs (some (ParaEntry.two w) :: rest) =
            if bc ≤ 10 then
              ((bc, (convert23to16 w).1) :: (bc + 1, (convert23to16 w).2) ::
                  (ppw_loop (bc + 2) msgs rest).1,
                (ppw_loop (bc + 2) msgs rest).2)
            else ppw_loop bc (msgs + 1) rest from rfl, if_pos hbc] at h
        rcases List.mem_cons.mp h with h | h
        · cases h
          omega
        · rcases List.mem_cons.mp h with h | h
          · cases h
            omega
          · exact ih (bc + 2) msgs s v h
    · rcases pw with _ | w | w <;>
        rw [show ppw_loop bc msgs (_ :: rest) =
          if bc ≤ 10 then _ else ppw_loop bc (msgs + 1) rest from rfl,
          if_neg hbc] at h <;>
        exact ih bc (msgs + 1) s v h

/-- Claim C5 counterexample: six tag-2 parameter entries (12 words) write the
slots `mc_para_word10` and `mc_para_word11` beyond `mc_para_word09`, and no
error is signalled — the message counter stays 0 and the loop returns
normally. -/
theorem C5_counterexample :
    ((processParaWords (List.replicate 6 (some (ParaEntry.two 0)))).1.any
        fun w => decide (9 < w.1)) = true ∧
    (processParaWords (List.replicate 6 (some (ParaEntry.two 0)))).2.2 = 0 := by
  decide

/-- Claim C5 (amended): an entry is admitted whenever its starting `bit_count`
is at most 10, so a tag-2 entry admitted at slot 10 writes slots 10 and 11;
no slot beyond `mc_para_word11` is ever written, and overflowing entries are
skipped with a logged message instead of raising an error. -/
theorem C5_amended (para_word : List (Option ParaEntry)) (s : Nat) (v : Int)
    (h : (s, v) ∈ (processParaWords para_word).1) : s ≤ 11 :=
  ppw_loop_slots para_word 0 0 s v h

/-- Claim C5 witness: slot 10 is actually written by six tag-2 entries, and
the bound holds there. -/
theorem C5_amended_witness :
    ((10 : Nat), (0 : Int)) ∈
      (processParaWords (List.replicate 6 (some (ParaEntry.two 0)))).1 ∧
    (10 : Nat) ≤ 11 :=
  ⟨by decide,
    C5_amended (List.replicate 6 (some (ParaEntry.two 0))) 10 0 (by decide)⟩

/-! ## Filtered analog voltage on the scope path (claim C6) -/

/-- Claim C6 counterexample: a frame whose last monitoring channel carries the
bits 0x3F800000 (the binary32 value 1.0) yields
`analog_diff_voltage_filtered = 1.0 * analog_diff_voltage_scale = 5/1024`,
not the plain bitcast value 1.0 — the code applies the V/bit scaling the
claim excludes. -/
theorem C6_counterexample :
    ((unpack_input_data { zeroScopeRaw with mon_ch4 := 0x3F800000 }).map
        update_calculated_fields_from_inputs).map
          ScopeStatus.analog_diff_voltage_filtered ≠
      int32_to_floatieee754 0x3F800000 := by
  with_unfolding_all decide

/-- Claim C6 (amended): for every scope-path frame whose channel-4 bits decode
(exponent field not 255), the decoded `mon_ch4` is the IEEE-754 binary32
reinterpretation of the raw 32 bits, `analog_diff_voltage_filtered` is that
value multiplied by `analog_diff_voltage_scale` (not the bare bitcast), and
`estimated_analog_force` is `analog_diff_voltage_filtered` multiplied by
`load_cell_scale`. -/
theorem C6_amended (f : ScopeRaw) (u : ScopeInputs)
    (h : unpack_input_data f = some u) :
    int32_to_floatieee754 f.mon_ch4 = some u.mon_ch4 ∧
    (update_calculated_fields_from_inputs u).analog_diff_voltage_filtered =
      u.mon_ch4 * analog_diff_voltage_scale ∧
    (update_calculated_fields_from_inputs u).estimated_analog_force =
      (update_calculated_fields_from_inputs u).analog_diff_voltage_filtered *
        load_cell_scale := by
  refine ⟨?_, rfl, rfl⟩
  unfold unpack_input_data at h
  rcases hq : int32_to_floatieee754 f.mon_ch4 with _ | q <;> rw [hq] at h
  · simp at h
  · have h' := Option.some.inj h
    rw [← h']

/-- Claim C6 witness: channel-4 bits 0x40000000 decode to 2.0 and the filtered
voltage is 2.0 scaled by `analog_diff_voltage_scale`. -/
theorem C6_amended_witness :
    int32_to_floatieee754 ((0x40000000 : Int)) = some 2 ∧
    (update_calculated_fields_from_inputs
        { zeroScopeInputs with mon_ch4 := 2 }).analog_diff_voltage_filtered =
      2 * analog_diff_voltage_scale :=
  ⟨(C6_amended { zeroScopeRaw with mon_ch4 := 0x40000000 }
      { zeroScopeInputs with mon_ch4 := 2 } (by with_unfolding_all decide)).1,
    (C6_amended { zeroScopeRaw with mon_ch4 := 0x40000000 }
      { zeroScopeInputs with mon_ch4 := 2 } (by with_unfolding_all decide)).2.1⟩

/-! ## Bus-setup slave-count mismatch (claim C8) -/

/-- Claim C8: whenever `config_init` reports a count different from the
configured `noDev`, the body raises `SlaveCountError` carrying the expected
and found counts, `setup_comm` returns `None`, and `master.close()` has run
before it returns. -/
theorem C8_slave_count_mismatch (noDev found mp_log : Nat) (h : found ≠ noDev) :
    setup_comm_body noDev found = Except.error ⟨noDev, found⟩ ∧
    (setup_comm noDev found mp_log).slaves = none ∧
    (setup_comm noDev found mp_log).master_closed = true := by
  refine ⟨by simp [setup_comm_body, h], ?_, ?_⟩ <;>
    simp [setup_comm, setup_comm_body, h]

/-- Claim C8 witness: expecting 2 slaves but finding 1 (scenario E1). -/
theorem C8_slave_count_mismatch_witness :
    setup_comm_body 2 1 = Except.error ⟨2, 1⟩ ∧
    (setup_comm 2 1 40).slaves = none ∧
    (setup_comm 2 1 40).master_closed = true :=
  C8_slave_count_mismatch 2 1 40 (by decide)

/-! ## Monitoring channels required by the status update (claim C10) -/

/-- Claim C10: `update_calculated_fields` reads `mon_ch1`, `mon_ch2` and
`mon_ch3` unconditionally, and those keys exist exactly when the drive model
was built with at least 3 monitoring channels; for `num_mon_ch < 3` every
call raises KeyError (`none`) instead of producing a derived status. -/
theorem C10_missing_mon_channels (d : LMDriveData) :
    ((inputs_mon_ch d 3).isSome ↔ 3 ≤ d.num_mon_ch) ∧
    ((update_calculated_fields d).isSome ↔ 3 ≤ d.num_mon_ch) := by
  by_cases h3 : 3 ≤ d.num_mon_ch
  · have l1 : inputs_mon_ch d 1 = some (d.mon 1) := by
      rw [inputs_mon_ch, if_pos (by omega)]
    have l2 : inputs_mon_ch d 2 = some (d.mon 2) := by
      rw [inputs_mon_ch, if_pos (by omega)]
    have l3 : inputs_mon_ch d 3 = some (d.mon 3) := by
      rw [inputs_mon_ch, if_pos (by omega)]
    constructor
    · simp [l3, h3]
    · simp [update_calculated_fields, l1, l2, l3, h3]
  · have l3 : inputs_mon_ch d 3 = none := by
      rw [inputs_mon_ch, if_neg (by omega)]
    constructor
    · simp [l3, h3]
    · rcases h1 : inputs_mon_ch d 1 with _ | m1 <;>
        rcases h2 : inputs_mon_ch d 2 with _ | m2 <;>
        simp [update_calculated_fields, h1, h2, l3, h3]

/-! ## Cycle-overrun termination (claim C7) -/

theorem commRun_cons_pos {ct e : ℚ} (c : Nat) (rest : List ℚ)
    (h : 0 < sleep_time ct e) :
    commRun ct c (e :: rest) = commRun ct 0 rest := by
  simp [commRun, overrunStep, h]

theorem commRun_cons_incr {ct e : ℚ} (c : Nat) (rest : List ℚ)
    (h : ¬ 0 < sleep_time ct e) (hc : c + 1 ≤ MAX_CYCLE_OVERRUN) :
    commRun ct c (e :: rest) = commRun ct (c + 1) rest := by
  have h2 : ¬ MAX_CYCLE_OVERRUN < c + 1 := by omega
  simp [commRun, overrunStep, h, h2]

theorem commRun_cons_fail {ct e : ℚ} (c : Nat) (rest : List ℚ)
    (h : ¬ 0 < sleep_time ct e) (hc : MAX_CYCLE_OVERRUN < c + 1) :
    commRun ct c (e :: rest) = none := by
  simp [commRun, overrunStep, h, hc]

theorem commRun_none_forward :
    ∀ (es : List ℚ) (ct : ℚ) (c : Nat), commRun ct c es = none →
      (∃ p r, es = p ++ r ∧ (∀ e ∈ p, ¬ 0 < sleep_time ct e) ∧
        MAX_CYCLE_OVERRUN + 1 ≤ c + p.length) ∨
      (∃ l1 l2 l3, es = l1 ++ l2 ++ l3 ∧ l2.length = MAX_CYCLE_OVERRUN + 1 ∧
        ∀ e ∈ l2, ¬ 0 < sleep_time ct e) := by
  intro es
  induction es with
  | nil =>
    intro ct c h
    simp [commRun] at h
  | cons e rest ih =>
    intro ct c h
    by_cases hp : 0 < sleep_time ct e
    · rw [commRun_cons_pos c rest hp] at h
      rcases ih ct 0 h with ⟨p, r, hdecomp, hall, hlen⟩ |
        ⟨l1, l2, l3, hdecomp, hlen, hall⟩
      · right
        refine ⟨[e], p.take (MAX_CYCLE_OVERRUN + 1),
          p.drop (MAX_CYCLE_OVERRUN + 1) ++ r, ?_, ?_,
          fun x hx => hall x (List.take_subset _ _ hx)⟩
        · simp [hdecomp]
          rw [← List.append_assoc, List.take_append_drop]
        · simp [List.length_take]
          omega
      · exact Or.inr ⟨e :: l1, l2, l3, by simp [hdecomp], hlen, hall⟩
    · by_cases hc : c + 1 ≤ MAX_CYCLE_OVERRUN
      · rw [commRun_cons_incr c rest hp hc] at h
        rcases ih ct (c + 1) h with ⟨p, r, hdecomp, hall, hlen⟩ |
          ⟨l1, l2, l3, hdecomp, hlen, hall⟩
        · left
          refine ⟨e :: p, r, by simp [hdecomp], ?_, by simp; omega⟩
          intro x hx
          rcases List.mem_cons.mp hx with rfl | hx
          · exact hp
          · exact hall x hx
        · exact Or.inr ⟨e :: l1, l2, l3, by simp [hdecomp], hlen, hall⟩
      · left
        refine ⟨[e], rest, rfl, ?_, by simp; omega⟩
        intro x hx
        rcases List.mem_cons.mp hx with rfl | hx
        · exact hp
        · simp at hx

theorem commRun_bad_segment :
    ∀ (l2 : List ℚ) (ct : ℚ) (c : Nat) (l3 : List ℚ),
      (∀ e ∈ l2, ¬ 0 < sleep_time ct e) →
      MAX_CYCLE_OVERRUN + 1 ≤ c + l2.length →
      c ≤ MAX_CYCLE_OVERRUN → commRun ct c (l2 ++ l3) = none := by
  intro l2
  induction l2 with
  | nil =>
    intro ct c l3 _ hlen hc
    simp at hlen
    omega
  | cons e l2' ih =>
    intro ct c l3 hall hlen hc
    have he : ¬ 0 < sleep_time ct e := hall e (List.mem_cons_self _ _)
    rw [List.cons_append]
    by_cases hfail : MAX_CYCLE_OVERRUN < c + 1
    · exact commRun_cons_fail c _ he hfail
    · rw [commRun_cons_incr c _ he (by omega)]
      refine ih ct (c + 1) l3 (fun x hx => hall x (List.mem_cons_of_mem _ hx))
        ?_ (by omega)
      simp at hlen ⊢
      omega

theorem commRun_reach :
    ∀ (l1 : List ℚ) (ct : ℚ) (rest : List ℚ) (c : Nat),
      c ≤ MAX_CYCLE_OVERRUN →
      (∀ c' ≤ MAX_CYCLE_OVERRUN, commRun ct c' rest = none) →
      commRun ct c (l1 ++ rest) = none := by
  intro l1
  induction l1 with
  | nil =>
    intro ct rest c hc hrest
    simpa using hrest c hc
  | cons e l1' ih =>
    intro ct rest c hc hrest
    rw [List.cons_append]
    by_cases hp : 0 < sleep_time ct e
    · rw [commRun_cons_pos c _ hp]
      exact ih ct rest 0 (Nat.zero_le _) hrest
    · by_cases hfail : MAX_CYCLE_OVERRUN < c + 1
      · exact commRun_cons_fail c _ hp hfail
      · rw [commRun_cons_incr c _ hp (by omega)]
        exact ih ct rest (c + 1) (by omega) hrest

/-- Claim C7: in each cycle, a positive `cycle_time - elapsed - 0.0004` sleeps
and resets the overrun counter to 0, otherwise the counter increments; and the
loop terminates with the CycleOverrun failure exactly when
`MAX_CYCLE_OVERRUN + 1 = 21` consecutive cycles have non-positive sleep time —
never otherwise. -/
theorem C7_cycle_overrun (ct : ℚ) :
    (∀ (c : Nat) (e : ℚ) (rest : List ℚ), 0 < sleep_time ct e →
      commRun ct c (e :: rest) = commRun ct 0 rest) ∧
    (∀ (c : Nat) (e : ℚ) (rest : List ℚ), ¬ 0 < sleep_time ct e →
      c + 1 ≤ MAX_CYCLE_OVERRUN →
      commRun ct c (e :: rest) = commRun ct (c + 1) rest) ∧
    (∀ es : List ℚ, commRun ct 0 es = none ↔
      ∃ l1 l2 l3, es = l1 ++ l2 ++ l3 ∧ l2.length = MAX_CYCLE_OVERRUN + 1 ∧
        ∀ e ∈ l2, ¬ 0 < sleep_time ct e) := by
  refine ⟨fun c e rest h => commRun_cons_pos c rest h,
    fun c e rest h hc => commRun_cons_incr c rest h hc,
    fun es => ⟨?_, ?_⟩⟩
  · intro h
    rcases commRun_none_forward es ct 0 h with ⟨p, r, hdecomp, hall, hlen⟩ | found
    · refine ⟨[], p.take (MAX_CYCLE_OVERRUN + 1),
        p.drop (MAX_CYCLE_OVERRUN + 1) ++ r, ?_, ?_,
        fun x hx => hall x (List.take_subset _ _ hx)⟩
      · simp [hdecomp]
        rw [← List.append_assoc, List.take_append_drop]
      · simp [List.length_take]
        omega
    · exact found
  · rintro ⟨l1, l2, l3, rfl, hlen, hall⟩
    rw [List.append_assoc]
    refine commRun_reach l1 ct (l2 ++ l3) 0 (Nat.zero_le _) ?_
    intro c' hc'
    exact commRun_bad_segment l2 ct c' l3 hall (by omega) hc'

/-- Claim C7 witness: a positive sleep resets the counter, a non-positive one
increments it, and 21 consecutive overruns terminate the run. -/
theorem C7_cycle_overrun_witness :
    commRun 1 5 ((1 / 2 : ℚ) :: []) = commRun 1 0 [] ∧
    commRun 1 5 ((2 : ℚ) :: []) = commRun 1 6 [] ∧
    commRun 1 0 (List.replicate 21 (2 : ℚ)) = none := by
  refine ⟨(C7_cycle_overrun 1).1 5 (1 / 2) [] (by norm_num [sleep_time]),
    (C7_cycle_overrun 1).2.1 5 2 [] (by norm_num [sleep_time])
      (by norm_num [MAX_CYCLE_OVERRUN]),
    ((C7_cycle_overrun 1).2.2 _).mpr
      ⟨[], List.replicate 21 2, [], by simp, by simp [MAX_CYCLE_OVERRUN], ?_⟩⟩
  intro e he
  rw [List.eq_of_mem_replicate he]
  norm_num [sleep_time]

end LinMot
